import Mathlib

/-!
# Libera backend — shallow embedding and verification

This file embeds the core of the Libera backend (rules engine, alert
lifecycle, chain-of-custody gap detection and the signed audit log) in
Lean 4 and settles the specification claims against it.

Sources embedded:
* `src/libera-backend/src/services/rulesEngine.ts`
* `src/libera-backend/src/models/alert.ts`
* `src/libera-backend/src/models/audit.ts` (plus the `audit_log` schema
  in the database initialization module)
* `src/libera-backend/src/models/evidence.ts`

Modelling conventions:
* JavaScript runtime values flowing through the rules engine are the
  inductive `Value` (undefined, null, string, number, boolean, array,
  object).  JS numbers that matter to the claims are integers
  (millisecond timestamps), so `Value.num` carries an `Int`.  A JS
  `Date` appears in the engine only through `>`/`<` comparisons and
  field storage, where it behaves as its millisecond value, so dates
  are embedded as `Value.num` of epoch milliseconds.
* `undefined` is embedded as `Value.undefined` (inside `Value`) or as
  `Option.none` (for typed record fields that may be absent).
* Fallible persistence plumbing (pool.connect, logging) is dropped;
  the data transformations the claims are about are kept exactly.
-/

namespace Libera

/-- JS runtime values as seen by the rules engine. -/
inductive Value where
  | undefined : Value
  | vnull : Value
  | str : String → Value
  | num : Int → Value
  | bool : Bool → Value
  | arr : List Value → Value
  | obj : List (String × Value) → Value

/-- JS truthiness combined with `typeof value === 'object'`:
true exactly for (non-null) objects and arrays.  `null` has
`typeof 'object'` but is falsy, so the conjunction excludes it. -/
def Value.isObjectLike : Value → Bool
  | .arr _ => true
  | .obj _ => true
  | _ => false

/-- First-match association lookup on an object's fields
(JS object keys are unique, so first-match agrees with JS). -/
def lookupField : List (String × Value) → String → Option Value
  | [], _ => none
  | (k, v) :: rest, key => if k = key then some v else lookupField rest key

/-- `s` is a canonical array index (JS `arr["7"]` hits the element,
`arr["07"]` does not). -/
def canonicalIndex (s : String) : Option Nat :=
  match s.toNat? with
  | some i => if toString i = s then some i else none
  | none => none

/-- JS property access `value[part]` for object-like values:
object key lookup, array index / `length` access; anything else is
`undefined`. -/
def Value.lookupKey : Value → String → Value
  | .obj fields, key => (lookupField fields key).getD .undefined
  | .arr xs, key =>
      if key = "length" then .num xs.length
      else
        match canonicalIndex key with
        | some i => (xs.get? i).getD .undefined
        | none => .undefined
  | _, _ => .undefined

/-- The loop body of `RulesEngine.getFieldValue`: walk the parts;
at each step, a non-object (or null/undefined) current value makes the
whole resolution return `undefined` immediately. -/
def walkPath : List String → Value → Value
  | [], value => value
  | part :: rest, value =>
      if value.isObjectLike then walkPath rest (value.lookupKey part)
      else .undefined

/-- JS `fieldPath.split('.')`: cut at every dot; the empty string
splits to `[""]`.  (Structural re-implementation of the split so the
kernel can evaluate it; it agrees with `String.splitOn "."`.) -/
def splitDotAux : List Char → List Char → List String
  | [], acc => [String.mk acc.reverse]
  | c :: rest, acc =>
      if c = '.' then String.mk acc.reverse :: splitDotAux rest []
      else splitDotAux rest (c :: acc)

/-- JS `fieldPath.split('.')`. -/
def jsSplitDot (s : String) : List String :=
  splitDotAux s.data []

/-- `RulesEngine.getFieldValue(context, fieldPath)`:
`fieldPath.split('.')` then walk. -/
def getFieldValue (context : Value) (fieldPath : String) : Value :=
  walkPath (jsSplitDot fieldPath) context

/-- The seven compiled condition operators of `RuleCondition['operator']`. -/
inductive Operator where
  | equals | not_equals | contains | greater_than | less_than
  | op_exists | not_exists
deriving DecidableEq, Repr

/-- `RulesEngine.mapOperator`'s lookup table (`operatorMap`). -/
def operatorMap : List (String × Operator) :=
  [("==", .equals), ("!=", .not_equals), ("contains", .contains),
   (">", .greater_than), ("<", .less_than),
   ("exists", .op_exists), ("!exists", .not_exists)]

/-- `RulesEngine.mapOperator(operator)`: table lookup with
`|| 'equals'` — an operator string absent from the table (including
the `undefined` of a condition with no operator key, embedded as
`none`) silently becomes `equals`. -/
def mapOperator (operator : Option String) : Operator :=
  (operator.bind (fun op => (operatorMap.lookup op))).getD .equals

/-- JS strict equality `===` restricted to the values the engine
compares: structural on primitives; arrays/objects compare by
reference in JS, and a YAML-literal operand is never the same
reference as a fact-context value, so those compare `false`. -/
def strictEq : Value → Value → Bool
  | .undefined, .undefined => true
  | .vnull, .vnull => true
  | .str a, .str b => a = b
  | .num a, .num b => a = b
  | .bool a, .bool b => a = b
  | _, _ => false

mutual

/-- JS `String(value)` for the embedded values.  Dates are already
embedded as their millisecond number. -/
def jsToString : Value → String
  | .undefined => "undefined"
  | .vnull => "null"
  | .str s => s
  | .num n => toString n
  | .bool b => if b then "true" else "false"
  | .arr xs => String.intercalate "," (jsJoinParts xs)
  | .obj _ => "[object Object]"

/-- `Array.prototype.toString` joins with commas; `null` and
`undefined` elements render as the empty string. -/
def jsJoinParts : List Value → List String
  | [] => []
  | .undefined :: rest => "" :: jsJoinParts rest
  | .vnull :: rest => "" :: jsJoinParts rest
  | v :: rest => jsToString v :: jsJoinParts rest

end

/-- `as` is a prefix of `bs` (character lists). -/
def charsPrefix : List Char → List Char → Bool
  | [], _ => true
  | _ :: _, [] => false
  | a :: as, b :: bs => a = b && charsPrefix as bs

/-- Substring membership of `needle` in `haystack` (character lists):
JS `String.prototype.includes`. -/
def charsIncludes (needle : List Char) : List Char → Bool
  | [] => charsPrefix needle []
  | l@(_ :: rest) => charsPrefix needle l || charsIncludes needle rest

/-- JS `haystack.includes(needle)` where a non-string `needle`
argument is coerced with `String(...)`. -/
def jsIncludes (haystack : String) (needle : Value) : Bool :=
  charsIncludes (jsToString needle).data haystack.data

/-- JS relational comparison `a < b` restricted to the comparisons the
engine performs: numbers (and dates via their millisecond value) order
numerically, strings order lexicographically; mixed-type comparisons
that would go through NaN-producing coercion yield `false`. -/
def jsLt : Value → Value → Bool
  | .num a, .num b => a < b
  | .str a, .str b => a < b
  | _, _ => false

/-- A compiled rule condition (`RuleCondition`); `field` is `Option`
because `cond.field || cond.path` can leave it `undefined`. -/
structure RuleCondition where
  field : Option String
  operator : Operator
  value : Value

/-- `RulesEngine.evaluateCondition(condition, fieldValue)`. -/
def evaluateCondition (condition : RuleCondition) (fieldValue : Value) : Bool :=
  match condition.operator with
  | .equals => strictEq fieldValue condition.value
  | .not_equals => !(strictEq fieldValue condition.value)
  | .contains =>
      match fieldValue with
      | .arr xs => xs.any (fun x => strictEq x condition.value)
      | v => jsIncludes (jsToString v) condition.value
  | .greater_than => jsLt condition.value fieldValue
  | .less_than => jsLt fieldValue condition.value
  | .op_exists => !(strictEq fieldValue .vnull) && !(strictEq fieldValue .undefined)
  | .not_exists => strictEq fieldValue .vnull || strictEq fieldValue .undefined

/-- `RulesEngine.evaluateConditions(conditions, context)`: logical AND
over the list, in order, short-circuiting on the first false condition;
an empty list yields `true`.  A condition whose `field` is `undefined`
would throw inside `split` in JS; that exception is caught per rule in
`processEvidence`, which the claims never reach (their conditions all
carry a field), so here the `undefined` field resolves like the empty
path. -/
def evaluateConditions (conditions : List RuleCondition) (context : Value) : Bool :=
  conditions.all fun condition =>
    evaluateCondition condition (getFieldValue context (condition.field.getD ""))

/-- JS `a || b` on two possibly-undefined values (embedded as
`Option`): the empty string is falsy, so it also falls through. -/
def jsOrStr (a b : Option String) : Option String :=
  match a with
  | some s => if s = "" then b else some s
  | none => b

/-- JS `a || b` where `a` is a possibly-undefined string and `b` a
string default (`action.type || 'create_alert'`). -/
def jsStrOrDefault (a : Option String) (d : String) : String :=
  match a with
  | some s => if s = "" then d else s
  | none => d

/-- JS `a || b` on possibly-undefined lists.  An empty array is
truthy in JS, so a present-but-empty list does NOT fall through. -/
def jsOrList {α : Type} (a b : Option (List α)) : Option (List α) :=
  match a with
  | some l => some l
  | none => b

/-- One entry of a YAML `when:`/`conditions:` list as js-yaml parses
it: every key may be absent. -/
structure YamlCondition where
  field : Option String
  path : Option String
  operator : Option String
  op : Option String
  value : Value

/-- One entry of a YAML `actions:`/`on_failure:` list. -/
structure YamlAction where
  type : Option String
  severity : Option String
  message : Option String
  evidence_refs : Option (List String)

/-- A compiled rule action (`RuleAction`).  `message` stays `Option`:
an action authored without a message keeps `undefined` there (the
compiler inserts no default for it). -/
structure RuleAction where
  type : String
  severity : String
  message : Option String
  evidence_refs : Option (List String)

/-- `RulesEngine.parseConditions(yamlConditions)`: a non-array
(absent, `null`, scalar) condition section — embedded as `none` —
yields the empty condition list; otherwise each entry is compiled
with `field || path` and `mapOperator(operator || op)`. -/
def parseConditions (yamlConditions : Option (List YamlCondition)) : List RuleCondition :=
  match yamlConditions with
  | some conds =>
      conds.map fun cond =>
        { field := jsOrStr cond.field cond.path
          operator := mapOperator (jsOrStr cond.operator cond.op)
          value := cond.value }
  | none => []

/-- `RulesEngine.parseActions(yamlActions)`: a non-array action
section yields the empty action list; otherwise each entry defaults
`type` to `create_alert` and `severity` to `medium` via `||`. -/
def parseActions (yamlActions : Option (List YamlAction)) : List RuleAction :=
  match yamlActions with
  | some actions =>
      actions.map fun action =>
        { type := jsStrOrDefault action.type "create_alert"
          severity := jsStrOrDefault action.severity "medium"
          message := action.message
          evidence_refs := action.evidence_refs }
  | none => []

/-- The object js-yaml produces for a rule's `yaml_definition`; each
section may be absent. -/
structure YamlContent where
  when : Option (List YamlCondition)
  conditions : Option (List YamlCondition)
  actions : Option (List YamlAction)
  on_failure : Option (List YamlAction)

/-- A `rule_defs` row as returned by `RuleDefinitionModel.findAllActive`.
`yaml_definition` is `none` when `load(def.yaml_definition)` would
throw on malformed YAML text (the only throwing step of the mapper,
caught per rule). -/
structure RuleDefRow where
  id : String
  name : String
  description : String
  yaml_definition : Option YamlContent
  active : Bool

/-- The in-memory compiled rule (`RuleDefinition` in rulesEngine.ts). -/
structure CompiledRule where
  id : String
  name : String
  description : String
  conditions : List RuleCondition
  actions : List RuleAction
  enabled : Bool

/-- The rule mapper inside `RulesEngine.loadRules`: malformed YAML
throws, is caught, and maps to `null`; everything else compiles —
there is no structural validation of the parsed content. -/
def compileRule (def_ : RuleDefRow) : Option CompiledRule :=
  match def_.yaml_definition with
  | none => none
  | some yamlContent =>
      some
        { id := def_.id
          name := def_.name
          description := def_.description
          conditions := parseConditions (jsOrList yamlContent.when yamlContent.conditions)
          actions := parseActions (jsOrList yamlContent.actions yamlContent.on_failure)
          enabled := def_.active }

/-- `RulesEngine.loadRules`: map every active definition through the
compiler and `filter(Boolean)` the `null`s away. -/
def loadRules (ruleDefs : List RuleDefRow) : List CompiledRule :=
  ruleDefs.filterMap compileRule

/-- JS regex `\w`: ASCII letters, digits and underscore.  Note this
class does NOT include `.`, so a dotted placeholder such as
`{{evidence.id}}` can never match the interpolation pattern. -/
def isWordChar (c : Char) : Bool :=
  c.isAlphanum || c = '_'

/-- The scan of `template.replace(/\{\{(\w+)\}\}/g, ...)` in
`RulesEngine.interpolateString`, over the template's characters.
At each position the engine tries to match `{{`, then a non-empty run
of word characters, then `}}`; on failure it advances one character.
On a match, the callback substitutes `String(value)` when the resolved
value is not `undefined` and the matched text itself otherwise, and
scanning resumes after the match.

The extra `fuel` argument makes the recursion structural so the kernel
can evaluate the scanner; each step consumes at least one character,
so with `fuel = input length` the `0` case is never reached. -/
def interpGo (context : Value) : Nat → List Char → List Char
  | 0, l => l
  | fuel + 1, l =>
      match l with
      | '{' :: '{' :: rest =>
          let word := rest.takeWhile isWordChar
          if word.isEmpty then '{' :: interpGo context fuel ('{' :: rest)
          else
            match rest.dropWhile isWordChar with
            | '}' :: '}' :: tail =>
                (match getFieldValue context (String.mk word) with
                 | .undefined => '{' :: '{' :: word ++ '}' :: '}' :: interpGo context fuel tail
                 | v => (jsToString v).data ++ interpGo context fuel tail)
            | _ => '{' :: interpGo context fuel ('{' :: rest)
      | c :: rest => c :: interpGo context fuel rest
      | [] => []

/-- `RulesEngine.interpolateString(template, context)`. -/
def interpolateString (template : String) (context : Value) : String :=
  String.mk (interpGo context template.data.length template.data)

/-- A `chain_of_custody_json` entry (`ChainOfCustodyEntry` in
evidence.ts); timestamps are epoch milliseconds. -/
structure ChainOfCustodyEntry where
  timestamp : Int
  custodian : String
  action : String
  location : Option String
  notes : Option String
deriving DecidableEq

/-- An `evidence_items` row (`EvidenceItem` in evidence.ts), restricted
to the fields the rules engine and the custody-gap detector read. -/
structure EvidenceRecord where
  id : String
  case_id : String
  type : String
  timestamp : Option Int
  location : Option Value
  owner_source : String
  chain_of_custody_json : Option (List ChainOfCustodyEntry)

/-- A `cases` row, restricted to the fields `flattenCase` reads. -/
structure CaseRecord where
  id : String
  case_number : String
  status : String
  created_at : Int

/-- `RulesEngine.flattenEvidence(evidence)`:
`chain_of_custody_json?.length || 0` turns both an absent list and an
empty list into `0`. -/
def flattenEvidence (evidence : EvidenceRecord) : Value :=
  .obj
    [("id", .str evidence.id),
     ("type", .str evidence.type),
     ("timestamp", (evidence.timestamp.map Value.num).getD .undefined),
     ("location", evidence.location.getD .undefined),
     ("owner_source", .str evidence.owner_source),
     ("chain_of_custody_length",
       .num ((evidence.chain_of_custody_json.map List.length).getD 0))]

/-- `RulesEngine.flattenCase(caseData)`. -/
def flattenCase (caseData : CaseRecord) : Value :=
  .obj
    [("id", .str caseData.id),
     ("case_number", .str caseData.case_number),
     ("status", .str caseData.status),
     ("created_at", .num caseData.created_at)]

/-- The fact context `RulesEngine.processEvidence` builds:
`{ evidence: flattenEvidence(evidence), case: flattenCase(caseData),
now: new Date() }`.  Note there is no `rule` key. -/
def buildContext (evidence : EvidenceRecord) (caseData : CaseRecord)
    (now : Int) : Value :=
  .obj
    [("evidence", flattenEvidence evidence),
     ("case", flattenCase caseData),
     ("now", .num now)]

/-- The alert-creation payload (`CreateAlertData` in alert.ts). -/
structure CreateAlertData where
  case_id : String
  rule_id : String
  severity : String
  explanation : String
  evidence_refs : List String
deriving DecidableEq

/-- `context.rule?.id || 'unknown'` in `RulesEngine.executeActions`:
optional chaining yields `undefined` unless the context object has a
`rule` key whose value has a truthy `id`. -/
def ruleIdFromContext (context : Value) : String :=
  match getFieldValue context "rule.id" with
  | .str s => if s = "" then "unknown" else s
  | .num n => if n = 0 then "unknown" else toString n
  | .bool b => if b then "true" else "unknown"
  | v => if v.isObjectLike then jsToString v else "unknown"

/-- `RulesEngine.executeActions(actions, context, evidence)`: one
alert-creation request per `create_alert` action.  An action whose
`message` is `undefined` would throw `TypeError` inside its async
callback (a rejected promise, no alert), hence `filterMap`.
`action.evidence_refs || [evidence.id]` falls back to the triggering
evidence item's id only when the rule declares no list (an empty
declared list is truthy and kept). -/
def executeActions (actions : List RuleAction) (context : Value)
    (evidence : EvidenceRecord) : List CreateAlertData :=
  actions.filterMap fun action =>
    if action.type = "create_alert" then
      match action.message with
      | some message =>
          some
            { case_id := evidence.case_id
              rule_id := ruleIdFromContext context
              severity := action.severity
              explanation := interpolateString message context
              evidence_refs := action.evidence_refs.getD [evidence.id] }
      | none => none
    else none

/-! ## Alert lifecycle (`src/libera-backend/src/models/alert.ts`)

`acknowledge`, `resolve` and `dismiss` are UPDATE statements whose only
predicate is `WHERE id = $1`: they are embedded as total functions on
the matched row.  None of the three inspects the row's current
`status`. -/

/-- An `alerts` row (`Alert` in alert.ts). -/
structure Alert where
  id : String
  case_id : String
  rule_id : String
  severity : String
  explanation : String
  evidence_refs : Option (List String)
  created_by_system_at : Int
  acknowledged_by : Option String
  acknowledged_at : Option Int
  resolution_notes : Option String
  status : String
deriving DecidableEq

/-- `AlertModel.acknowledge(alertId, userId, resolutionNotes)`:
`SET acknowledged_by = $2, acknowledged_at = NOW(),
resolution_notes = $3, status = 'acknowledged'`.  An absent
`resolutionNotes` argument writes SQL NULL (`none`). -/
def acknowledgeAlert (alert : Alert) (userId : String)
    (resolutionNotes : Option String) (now : Int) : Alert :=
  { alert with
      acknowledged_by := some userId
      acknowledged_at := some now
      resolution_notes := resolutionNotes
      status := "acknowledged" }

/-- `AlertModel.resolve(alertId, resolutionNotes)`:
`SET resolution_notes = $2, status = 'resolved'`. -/
def resolveAlert (alert : Alert) (resolutionNotes : String) : Alert :=
  { alert with
      resolution_notes := some resolutionNotes
      status := "resolved" }

/-- `AlertModel.dismiss(alertId, reason)`:
`SET resolution_notes = $2, status = 'dismissed'` with
`$2 = 'Dismissed: ' + reason`. -/
def dismissAlert (alert : Alert) (reason : String) : Alert :=
  { alert with
      resolution_notes := some ("Dismissed: " ++ reason)
      status := "dismissed" }

/-! ## Audit log (`src/libera-backend/src/models/audit.ts`)

`AuditModel.create` serializes a fixed-key-order object with
`JSON.stringify` and hashes it with SHA-256.  The digest is embedded
as the canonical payload itself (`SignaturePayload`): SHA-256 is
deterministic, and the model idealizes it as collision-free, so
signature comparison is payload comparison.  Timestamps are epoch
milliseconds on both sides of the comparison (`toISOString` renders a
millisecond instant; `JSON.stringify` of the fetched `Date` does the
same), so equal milliseconds ↔ equal serialized timestamps. -/

/-- The object serialized and hashed by `AuditModel.create` and by
`AuditModel.verifyIntegrity`: every entry field except the signature
itself. -/
structure SignaturePayload where
  user_id : Option String
  action : String
  target_type : String
  target_id : Option String
  details : Option String
  timestamp : Int
  ip_address : Option String
  user_agent : Option String
deriving DecidableEq

/-- The argument of `AuditModel.create` (`CreateAuditEntryData`);
`details` stands for the canonical serialization of the detail
payload. -/
structure CreateAuditEntryData where
  user_id : Option String
  action : String
  target_type : String
  target_id : Option String
  details : Option String
  ip_address : Option String
  user_agent : Option String

/-- An `audit_log` row.  Per the schema in the database initialization
module, `timestamp TIMESTAMPTZ DEFAULT NOW()` — the INSERT in
`AuditModel.create` does not list the `timestamp` column, so the
database assigns it. -/
structure AuditRow where
  id : Int
  user_id : Option String
  action : String
  target_type : String
  target_id : Option String
  details : Option String
  timestamp : Int
  ip_address : Option String
  user_agent : Option String
  signature : SignaturePayload
deriving DecidableEq

/-- `AuditModel.create(entry)`.  `wallClock` is the process clock read
by `new Date().toISOString()` when the signature is computed; `dbNow`
is the instant the database's `DEFAULT NOW()` assigns to the persisted
`timestamp` column.  The signed material uses `wallClock`; the stored
row carries `dbNow`; `wallClock` itself is persisted nowhere. -/
def auditCreate (entry : CreateAuditEntryData) (wallClock : Int)
    (dbNow : Int) (newId : Int) : AuditRow :=
  let signature : SignaturePayload :=
    { user_id := entry.user_id
      action := entry.action
      target_type := entry.target_type
      target_id := entry.target_id
      details := entry.details
      timestamp := wallClock
      ip_address := entry.ip_address
      user_agent := entry.user_agent }
  { id := newId
    user_id := entry.user_id
    action := entry.action
    target_type := entry.target_type
    target_id := entry.target_id
    details := entry.details
    timestamp := dbNow
    ip_address := entry.ip_address
    user_agent := entry.user_agent
    signature := signature }

/-- `AuditModel.verifyIntegrity(entryId)`: fetch the row, recompute
the digest over the row's persisted fields — including the persisted
`timestamp` — and compare with the stored signature; a missing row
verifies `false`. -/
def verifyIntegrity (store : List AuditRow) (entryId : Int) : Bool :=
  match store.find? (fun row => row.id = entryId) with
  | none => false
  | some entry =>
      let expected : SignaturePayload :=
        { user_id := entry.user_id
          action := entry.action
          target_type := entry.target_type
          target_id := entry.target_id
          details := entry.details
          timestamp := entry.timestamp
          ip_address := entry.ip_address
          user_agent := entry.user_agent }
      entry.signature = expected

/-- The row shape `AuditModel.getAuditorExport` returns:
`SELECT id, action, target_type, timestamp` and an explicit
re-projection to exactly these four fields. -/
structure AuditorExportRow where
  id : Int
  action : String
  target_type : String
  timestamp : Int
deriving DecidableEq

/-- The four kept fields of a row (the SELECT list / the final map in
`getAuditorExport`). -/
def auditRowView (row : AuditRow) : AuditorExportRow :=
  { id := row.id
    action := row.action
    target_type := row.target_type
    timestamp := row.timestamp }

/-- The WHERE clause of `getAuditorExport`: inclusive date range plus
the optional target-type filter. -/
def auditorExportKeeps (startDate endDate : Int) (targetType : Option String)
    (row : AuditRow) : Bool :=
  startDate ≤ row.timestamp && row.timestamp ≤ endDate &&
    match targetType with
    | some t => row.target_type = t
    | none => true

/-- `AuditModel.getAuditorExport(startDate, endDate, targetType?)`:
filter by date range and optional target type, `ORDER BY timestamp
ASC`, and return only id/action/target-type/timestamp per row. -/
def getAuditorExport (store : List AuditRow) (startDate endDate : Int)
    (targetType : Option String) : List AuditorExportRow :=
  (List.insertionSort (fun a b => a.timestamp ≤ b.timestamp)
      (store.filter (auditorExportKeeps startDate endDate targetType))).map
    auditRowView

/-! ## Chain-of-custody gaps
(`EvidenceModel.findEvidenceWithCustodyGaps` in evidence.ts)

The JS filter sorts an item's custody entries by timestamp (the
comparator subtracts millisecond values; `Array.prototype.sort` with a
comparator sorts stably, as does `insertionSort`), then walks adjacent
pairs.  `gapMs / (1000*60*60) > 24` over IEEE doubles with an integer
`gapMs` is equivalent to `gapMs > 86400000`: 24 is exactly
representable, division by the exact constant 3,600,000 is correctly
rounded and monotone, and the quotient at `gapMs = 86400000` is
exactly 24. -/

/-- The adjacent-pair loop `for (let i = 1; i < entries.length; i++)`. -/
def custodyGapLoop : List ChainOfCustodyEntry → Bool
  | e1 :: e2 :: rest =>
      decide (e2.timestamp - e1.timestamp > 86400000) || custodyGapLoop (e2 :: rest)
  | _ => false

/-- `entries.sort((a, b) => a.timestamp - b.timestamp)`. -/
def sortCustody (entries : List ChainOfCustodyEntry) : List ChainOfCustodyEntry :=
  List.insertionSort (fun a b => a.timestamp ≤ b.timestamp) entries

/-- The per-item gap predicate of `findEvidenceWithCustodyGaps`:
fewer than two entries never report a gap; otherwise sort by timestamp
ascending and look for an adjacent pair strictly more than 24 hours
apart. -/
def hasCustodyGap (entries : List ChainOfCustodyEntry) : Bool :=
  if entries.length < 2 then false
  else custodyGapLoop (sortCustody entries)

/-- The JS filter of `findEvidenceWithCustodyGaps` over the
pre-selected items (absent custody list → kept out). -/
def findEvidenceWithCustodyGaps (items : List EvidenceRecord) : List EvidenceRecord :=
  items.filter fun item =>
    match item.chain_of_custody_json with
    | none => false
    | some entries => hasCustodyGap entries

/-! ## Specification-side helper definitions

Used only to *state* properties; each is compared against the embedded
code by a proved theorem, never substituted for it. -/

/-- The ascending timestamp sequence of an entry list — the reference
point of the gap specification ("sort entries by timestamp
ascending"). -/
def sortedCustodyTimestamps (entries : List ChainOfCustodyEntry) : List Int :=
  List.insertionSort (· ≤ ·) (entries.map fun e => e.timestamp)

/-- Adjacent-pair gap specification: some adjacent pair of the
ascending timestamp sequence is strictly more than `threshold`
milliseconds apart. -/
def adjacentGapSpec (ts : List Int) (threshold : Int) : Prop :=
  ∃ p ∈ ts.zip ts.tail, p.2 - p.1 > threshold

/-- The auditor-export WHERE clause expressed on the minimized view —
it reads only fields the view keeps. -/
def viewKeeps (startDate endDate : Int) (targetType : Option String)
    (v : AuditorExportRow) : Bool :=
  startDate ≤ v.timestamp && v.timestamp ≤ endDate &&
    match targetType with
    | some t => v.target_type = t
    | none => true

/-- The pure-Int rendition of the custody gap loop (the loop reads
nothing but timestamps). -/
def intGapLoop : List Int → Bool
  | t1 :: t2 :: rest => decide (t2 - t1 > 86400000) || intGapLoop (t2 :: rest)
  | _ => false

/-! ## Concrete records used by witnesses and counterexamples -/

/-- A custody entry with the given timestamp (other fields fixed). -/
def mkCustodyEntry (t : Int) : ChainOfCustodyEntry :=
  { timestamp := t, custodian := "officer-1", action := "transferred",
    location := none, notes := none }

/-- Concrete evidence item: id `EV-1`, timestamped one hour past the
clock value `1700000000000` used in the scenarios. -/
def sampleEvidence : EvidenceRecord :=
  { id := "EV-1", case_id := "CASE-1", type := "document",
    timestamp := some 1700003600000, location := none,
    owner_source := "registry", chain_of_custody_json := none }

/-- Concrete case row for context building. -/
def sampleCase : CaseRecord :=
  { id := "CASE-1", case_number := "2026-001", status := "open",
    created_at := 1690000000000 }

/-- The fact context `processEvidence` would build for
`sampleEvidence`/`sampleCase` at clock `1700000000000`. -/
def sampleContext : Value :=
  buildContext sampleEvidence sampleCase 1700000000000

/-- A rule row whose YAML has an action section but no condition
section (neither `when` nor `conditions`). -/
def ruleRowNoConditions : RuleDefRow :=
  { id := "R-3", name := "no-conditions rule", description := "",
    yaml_definition := some
      { when := none, conditions := none,
        actions := some
          [{ type := none, severity := some "high",
             message := some "always fires", evidence_refs := none }],
        on_failure := none },
    active := true }

/-- A rule row with an unrecognized operator string. -/
def ruleRowUnknownOperator : RuleDefRow :=
  { id := "R-9", name := "unknown operator rule", description := "",
    yaml_definition := some
      { when := some
          [{ field := some "evidence.type", path := none,
             operator := some "matches_regex", op := none,
             value := .str "photo" }],
        conditions := none,
        actions := some
          [{ type := none, severity := none,
             message := some "operator test", evidence_refs := none }],
        on_failure := none },
    active := true }

/-- A concrete audit-entry creation payload. -/
def sampleAuditData : CreateAuditEntryData :=
  { user_id := some "user-1", action := "case.update",
    target_type := "case", target_id := some "CASE-1",
    details := some "status changed to closed",
    ip_address := some "10.0.0.1", user_agent := some "cli" }

/-- A concrete audit row for export statements. -/
def sampleAuditRow : AuditRow :=
  { id := 1, user_id := some "user-1", action := "case.update",
    target_type := "case", target_id := some "CASE-1",
    details := some "sensitive detail", timestamp := 5,
    ip_address := some "10.0.0.1", user_agent := some "cli",
    signature :=
      { user_id := some "user-1", action := "case.update",
        target_type := "case", target_id := some "CASE-1",
        details := some "sensitive detail", timestamp := 5,
        ip_address := some "10.0.0.1", user_agent := some "cli" } }

/-- `sampleAuditRow` with every stripped field changed
(actor identity, target id, detail payload, network metadata) and the
kept fields identical. -/
def sampleAuditRowScrubbed : AuditRow :=
  { sampleAuditRow with
      user_id := none, target_id := none, details := none,
      ip_address := none, user_agent := none,
      signature :=
        { user_id := none, action := "case.update",
          target_type := "case", target_id := none, details := none,
          timestamp := 5, ip_address := none, user_agent := none } }

/-- A concrete resolved alert. -/
def resolvedAlert : Alert :=
  { id := "AL-1", case_id := "CASE-1", rule_id := "R-1",
    severity := "high", explanation := "x", evidence_refs := none,
    created_by_system_at := 0, acknowledged_by := some "user-2",
    acknowledged_at := some 10, resolution_notes := some "done",
    status := "resolved" }

/-- A concrete pending alert. -/
def pendingAlert : Alert :=
  { id := "AL-2", case_id := "CASE-1", rule_id := "R-1",
    severity := "low", explanation := "y", evidence_refs := none,
    created_by_system_at := 0, acknowledged_by := none,
    acknowledged_at := none, resolution_notes := none,
    status := "pending" }

/-- A compiled condition matching `sampleEvidence` in `sampleContext`:
`evidence.timestamp` (one hour past the clock) strictly above the
clock value. -/
def sampleCondition : RuleCondition :=
  { field := some "evidence.timestamp", operator := .greater_than,
    value := .num 1700000000000 }

/-- A compiled `create_alert` action whose message carries the dotted
placeholder of the specification's scenario. -/
def sampleAction : RuleAction :=
  { type := "create_alert", severity := "medium",
    message := some "Future-dated evidence \x7b\x7bevidence.id\x7d\x7d",
    evidence_refs := none }

/-! ## Helper lemmas -/

/-- Once the walk hits `undefined`, it stays `undefined`. -/
theorem walkPath_undef : ∀ parts : List String, walkPath parts Value.undefined = Value.undefined
  | [] => rfl
  | _ :: _ => by simp [walkPath, Value.isObjectLike]

/-- `map` commutes with `orderedInsert` when the comparison factors
through the mapped function. -/
theorem map_orderedInsert {α β : Type} (f : α → β) (r : α → α → Prop)
    (s : β → β → Prop) [DecidableRel r] [DecidableRel s]
    (hrs : ∀ x y, r x y ↔ s (f x) (f y)) (a : α) :
    ∀ l : List α,
      (List.orderedInsert r a l).map f = List.orderedInsert s (f a) (l.map f)
  | [] => rfl
  | b :: l => by
      by_cases h : r a b
      · simp [List.orderedInsert, h, (hrs a b).mp h]
      · have hs : ¬s (f a) (f b) := fun hc => h ((hrs a b).mpr hc)
        simp [List.orderedInsert, h, hs, map_orderedInsert f r s hrs a l]

/-- `map` commutes with `insertionSort` when the comparison factors
through the mapped function. -/
theorem map_insertionSort {α β : Type} (f : α → β) (r : α → α → Prop)
    (s : β → β → Prop) [DecidableRel r] [DecidableRel s]
    (hrs : ∀ x y, r x y ↔ s (f x) (f y)) :
    ∀ l : List α,
      (List.insertionSort r l).map f = List.insertionSort s (l.map f)
  | [] => rfl
  | a :: l => by
      simp only [List.insertionSort, List.map]
      rw [map_orderedInsert f r s hrs a _, map_insertionSort f r s hrs l]

/-- `map` commutes with `filter` when the predicate factors through
the mapped function. -/
theorem filter_map_comm {α β : Type} (f : α → β) (p : β → Bool) :
    ∀ l : List α, (l.filter fun a => p (f a)).map f = (l.map f).filter p
  | [] => rfl
  | a :: l => by
      cases h : p (f a) <;>
        simp [List.filter_cons, h, filter_map_comm f p l]

/-- The custody gap loop reads nothing but timestamps. -/
theorem custodyGapLoop_eq_intGapLoop :
    ∀ l : List ChainOfCustodyEntry,
      custodyGapLoop l = intGapLoop (l.map fun e => e.timestamp)
  | [] => rfl
  | [_] => rfl
  | e1 :: e2 :: rest => by
      simp only [custodyGapLoop, intGapLoop, List.map]
      rw [show (List.map (fun e => e.timestamp) rest : List Int) =
            (rest.map fun e => e.timestamp) from rfl]
      have ih := custodyGapLoop_eq_intGapLoop (e2 :: rest)
      simp only [List.map] at ih
      rw [ih]

/-- The adjacent-pair loop finds a gap exactly when some adjacent pair
exceeds the threshold. -/
theorem intGapLoop_iff :
    ∀ ts : List Int, intGapLoop ts = true ↔ adjacentGapSpec ts 86400000
  | [] => by simp [intGapLoop, adjacentGapSpec]
  | [_] => by simp [intGapLoop, adjacentGapSpec]
  | t1 :: t2 :: rest => by
      rw [show intGapLoop (t1 :: t2 :: rest) =
            (decide (t2 - t1 > 86400000) || intGapLoop (t2 :: rest)) from rfl]
      rw [Bool.or_eq_true, decide_eq_true_eq, intGapLoop_iff (t2 :: rest)]
      simp only [adjacentGapSpec, List.zip_cons_cons, List.tail_cons,
        List.mem_cons]
      constructor
      · rintro (h | ⟨p, hp, hgt⟩)
        · exact ⟨(t1, t2), Or.inl rfl, h⟩
        · exact ⟨p, Or.inr hp, hgt⟩
      · rintro ⟨p, hp | hp, hgt⟩
        · subst hp
          exact Or.inl hgt
        · exact Or.inr ⟨p, hp, hgt⟩

/-- A list of fewer than two timestamps has no adjacent pair. -/
theorem adjacentGapSpec_short (ts : List Int) (h : ts.length < 2)
    (threshold : Int) : ¬adjacentGapSpec ts threshold := by
  match ts with
  | [] => simp [adjacentGapSpec]
  | [_] => simp [adjacentGapSpec]
  | _ :: _ :: _ => simp only [List.length_cons] at h; omega

/-- `hasCustodyGap` in terms of the sorted timestamp sequence. -/
theorem hasCustodyGap_eq (entries : List ChainOfCustodyEntry) :
    hasCustodyGap entries =
      if entries.length < 2 then false
      else intGapLoop (sortedCustodyTimestamps entries) := by
  unfold hasCustodyGap
  by_cases h : entries.length < 2
  · simp [h]
  · simp only [h, if_false]
    rw [custodyGapLoop_eq_intGapLoop]
    unfold sortCustody sortedCustodyTimestamps
    rw [map_insertionSort (fun e => e.timestamp)
      (fun a b => a.timestamp ≤ b.timestamp) (fun a b : Int => a ≤ b)
      (fun _ _ => Iff.rfl) entries]

/-- The gap verdict depends only on the multiset of timestamps. -/
theorem hasCustodyGap_perm (l₁ l₂ : List ChainOfCustodyEntry)
    (h : (l₁.map fun e => e.timestamp).Perm (l₂.map fun e => e.timestamp)) :
    hasCustodyGap l₁ = hasCustodyGap l₂ := by
  have hlen : l₁.length = l₂.length := by
    have := h.length_eq
    simpa using this
  have hsort : sortedCustodyTimestamps l₁ = sortedCustodyTimestamps l₂ := by
    unfold sortedCustodyTimestamps
    apply List.eq_of_perm_of_sorted
      ((List.perm_insertionSort _ _).trans
        (h.trans (List.perm_insertionSort _ _).symm))
      (List.sorted_insertionSort _ _) (List.sorted_insertionSort _ _)
  rw [hasCustodyGap_eq, hasCustodyGap_eq, hlen, hsort]

/-- The sorted timestamp sequence has one entry per custody entry. -/
theorem sortedCustodyTimestamps_length (entries : List ChainOfCustodyEntry) :
    (sortedCustodyTimestamps entries).length = entries.length := by
  unfold sortedCustodyTimestamps
  rw [(List.perm_insertionSort _ _).length_eq, List.length_map]

/-- The WHERE clause reads only fields the export view keeps. -/
theorem auditorExportKeeps_view (s e : Int) (tt : Option String)
    (row : AuditRow) :
    auditorExportKeeps s e tt row = viewKeeps s e tt (auditRowView row) := rfl

/-- `getAuditorExport` factors through the minimized view: it equals a
sort of a filter of the per-row views. -/
theorem getAuditorExport_eq_view (store : List AuditRow) (s e : Int)
    (tt : Option String) :
    getAuditorExport store s e tt =
      List.insertionSort (fun a b => a.timestamp ≤ b.timestamp)
        ((store.map auditRowView).filter (viewKeeps s e tt)) := by
  unfold getAuditorExport
  rw [map_insertionSort auditRowView
    (fun a b => a.timestamp ≤ b.timestamp)
    (fun a b => a.timestamp ≤ b.timestamp) (fun _ _ => Iff.rfl)]
  rw [← filter_map_comm auditRowView (viewKeeps s e tt) store]
  rfl

/-! ## Claims -/

/-- **C1** — The claim says `verifyIntegrity` returns `true`
immediately after `AuditModel.create` appends an entry, the signature
being a digest over the entry's own persisted timestamp.  In the code,
`create` signs the process wall clock (`new Date().toISOString()`) but
never persists it — the INSERT omits the `timestamp` column, so the
database's `DEFAULT NOW()` assigns the persisted value — while
`verifyIntegrity` recomputes the digest over the persisted timestamp.
At any creation where the two clocks differ (here by 17 ms),
verification right after append is `false`; it would be `true` only in
the measure-zero coincidence that the two independent clocks agree. -/
theorem audit_verify_fails_right_after_append :
    verifyIntegrity [auditCreate sampleAuditData 1700000000000 1700000000017 1] 1 = false
    ∧ verifyIntegrity [auditCreate sampleAuditData 1700000000000 1700000000000 1] 1 = true := by
  constructor <;> decide

/-- **C2** — The claim says a condition with an unknown operator
string fails compilation and the rule is excluded, never silently
evaluated as an always-equals rule.  In the code `mapOperator` ends in
`operatorMap[operator] || 'equals'`: the unrecognized string
`matches_regex` (and even the documented long name `not_equals`,
absent from the table) maps to `equals`, the rule compiles, stays in
the active set, and evaluates exactly like an equals rule — true on
the equal value, false otherwise. -/
theorem unknown_operator_compiles_as_equals :
    mapOperator (some "matches_regex") = Operator.equals
    ∧ mapOperator (some "not_equals") = Operator.equals
    ∧ (loadRules [ruleRowUnknownOperator]).length = 1
    ∧ ((loadRules [ruleRowUnknownOperator]).map fun r =>
        r.conditions.map fun c => c.operator) = [[Operator.equals]]
    ∧ ((loadRules [ruleRowUnknownOperator]).map fun r =>
        evaluateConditions r.conditions
          (Value.obj [("evidence", Value.obj [("type", Value.str "photo")])])) = [true]
    ∧ ((loadRules [ruleRowUnknownOperator]).map fun r =>
        evaluateConditions r.conditions
          (Value.obj [("evidence", Value.obj [("type", Value.str "video")])])) = [false] := by
  decide

/-- **C3** — The claim says a rule definition failing structural
validation (here: no condition section at all) compiles to nothing and
can never match.  In the code `loadRules` performs no structural
validation: `parseConditions(undefined)` yields the empty condition
list, the rule stays in the compiled set, the empty conjunction
evaluates `true` against every fact context, and its action emits an
alert for the processed evidence item. -/
theorem unvalidated_rule_compiles_and_matches :
    (loadRules [ruleRowNoConditions]).length = 1
    ∧ ((loadRules [ruleRowNoConditions]).map fun r => r.conditions.length) = [0]
    ∧ ((loadRules [ruleRowNoConditions]).map fun r =>
        evaluateConditions r.conditions sampleContext) = [true]
    ∧ ((loadRules [ruleRowNoConditions]).map fun r =>
        (executeActions r.actions sampleContext sampleEvidence).length) = [1] := by
  refine ⟨rfl, rfl, rfl, rfl⟩

/-- **C4** — The claim says the emitted alert carries the triggering
rule's id and the message with every `\x7b\x7bpath\x7d\x7d`
placeholder — including dotted paths — replaced.  In the code the
fact context `\x7b evidence, case, now \x7d` never contains a `rule`
key, so `context.rule?.id || 'unknown'` always yields `unknown`; and
the interpolation regex captures `\w+`, which cannot match a dotted
path, so `\x7b\x7bevidence.id\x7d\x7d` survives verbatim even though
a single-word placeholder such as `\x7b\x7bnow\x7d\x7d` is replaced.
The matched rule still emits exactly one request with its severity
and the triggering item's id as fallback evidence reference. -/
theorem matched_rule_alert_payload :
    evaluateConditions [sampleCondition] sampleContext = true
    ∧ executeActions [sampleAction] sampleContext sampleEvidence =
        [{ case_id := "CASE-1", rule_id := "unknown", severity := "medium",
           explanation := "Future-dated evidence \x7b\x7bevidence.id\x7d\x7d",
           evidence_refs := ["EV-1"] }]
    ∧ interpolateString "at \x7b\x7bnow\x7d\x7d" sampleContext = "at 1700000000000" := by
  decide

/-- **C6** — The claim says `resolved` and `dismissed` are terminal:
acknowledging an already-resolved alert is rejected and leaves the
alert unchanged, and dismissing an acknowledged alert is rejected.
In the code all three UPDATEs match on `WHERE id = $1` alone and
never inspect the current status: acknowledging a resolved alert
succeeds and drags the status back to `acknowledged` (mutating the
row), and dismissing an acknowledged alert succeeds as well. -/
theorem terminal_alert_transitions_not_rejected :
    (acknowledgeAlert resolvedAlert "user-9" none 99).status = "acknowledged"
    ∧ acknowledgeAlert resolvedAlert "user-9" none 99 ≠ resolvedAlert
    ∧ (dismissAlert (acknowledgeAlert pendingAlert "user-9" none 99) "dup").status
        = "dismissed" := by
  refine ⟨rfl, by decide, rfl⟩

/-- **C8 counterexample** — The claim says `resolution_notes` is set
only by the resolve transition.  Concretely, dismissing a pending
alert (a transition to `dismissed`, not `resolved`) writes
`resolution_notes` from `none` to `some "Dismissed: duplicate"`, and
acknowledging writes it too — refuting the claim as stated. -/
theorem resolution_notes_written_by_dismiss :
    (dismissAlert pendingAlert "duplicate").resolution_notes
        = some "Dismissed: duplicate"
    ∧ (dismissAlert pendingAlert "duplicate").status = "dismissed"
    ∧ pendingAlert.resolution_notes = none
    ∧ (acknowledgeAlert pendingAlert "user-9" (some "note") 99).resolution_notes
        = some "note" := by
  refine ⟨rfl, rfl, rfl, rfl⟩

/-- **C8 (amended)** — `acknowledged_at` is set only by the
acknowledge transition (resolve and dismiss preserve it);
`resolution_notes` is written by acknowledge (to its optional notes
argument), by resolve, and by dismiss (prefixed `Dismissed: `); and
each transition leaves every field other than the ones it sets
unchanged. -/
theorem alert_transition_field_effects (alert : Alert) (userId : String)
    (notes : Option String) (now : Int) (resNotes reason : String) :
    ((resolveAlert alert resNotes).acknowledged_at = alert.acknowledged_at
      ∧ (dismissAlert alert reason).acknowledged_at = alert.acknowledged_at
      ∧ (acknowledgeAlert alert userId notes now).acknowledged_at = some now)
    ∧ ((acknowledgeAlert alert userId notes now).resolution_notes = notes
      ∧ (resolveAlert alert resNotes).resolution_notes = some resNotes
      ∧ (dismissAlert alert reason).resolution_notes
          = some ("Dismissed: " ++ reason))
    ∧ ((resolveAlert alert resNotes).id = alert.id
      ∧ (resolveAlert alert resNotes).case_id = alert.case_id
      ∧ (resolveAlert alert resNotes).rule_id = alert.rule_id
      ∧ (resolveAlert alert resNotes).severity = alert.severity
      ∧ (resolveAlert alert resNotes).explanation = alert.explanation
      ∧ (resolveAlert alert resNotes).evidence_refs = alert.evidence_refs
      ∧ (resolveAlert alert resNotes).created_by_system_at
          = alert.created_by_system_at
      ∧ (resolveAlert alert resNotes).acknowledged_by = alert.acknowledged_by)
    ∧ ((dismissAlert alert reason).id = alert.id
      ∧ (dismissAlert alert reason).case_id = alert.case_id
      ∧ (dismissAlert alert reason).rule_id = alert.rule_id
      ∧ (dismissAlert alert reason).severity = alert.severity
      ∧ (dismissAlert alert reason).explanation = alert.explanation
      ∧ (dismissAlert alert reason).evidence_refs = alert.evidence_refs
      ∧ (dismissAlert alert reason).created_by_system_at
          = alert.created_by_system_at
      ∧ (dismissAlert alert reason).acknowledged_by = alert.acknowledged_by)
    ∧ ((acknowledgeAlert alert userId notes now).id = alert.id
      ∧ (acknowledgeAlert alert userId notes now).case_id = alert.case_id
      ∧ (acknowledgeAlert alert userId notes now).rule_id = alert.rule_id
      ∧ (acknowledgeAlert alert userId notes now).severity = alert.severity
      ∧ (acknowledgeAlert alert userId notes now).explanation
          = alert.explanation
      ∧ (acknowledgeAlert alert userId notes now).evidence_refs
          = alert.evidence_refs
      ∧ (acknowledgeAlert alert userId notes now).created_by_system_at
          = alert.created_by_system_at) := by
  refine ⟨⟨rfl, rfl, rfl⟩, ⟨rfl, rfl, rfl⟩,
    ⟨rfl, rfl, rfl, rfl, rfl, rfl, rfl, rfl⟩,
    ⟨rfl, rfl, rfl, rfl, rfl, rfl, rfl, rfl⟩,
    ⟨rfl, rfl, rfl, rfl, rfl, rfl, rfl⟩⟩

/-- **C5** — The custody gap detector reports a gap iff some adjacent
pair of the ascending timestamp sequence is strictly more than 24
hours (86,400,000 ms) apart; lists of fewer than two entries never
report a gap; the verdict depends only on the multiset of timestamps,
not on the entries' input order or their non-timestamp fields; and
concretely `T0, T0+10h, T0+30h` has no gap while `T0, T0+30h` has
one. -/
theorem custody_gap_detector_correct (entries l₁ l₂ : List ChainOfCustodyEntry) :
    (hasCustodyGap entries = true ↔
      adjacentGapSpec (sortedCustodyTimestamps entries) 86400000)
    ∧ (entries.length ≤ 1 → hasCustodyGap entries = false)
    ∧ ((l₁.map fun e => e.timestamp).Perm (l₂.map fun e => e.timestamp) →
        hasCustodyGap l₁ = hasCustodyGap l₂)
    ∧ hasCustodyGap
        [mkCustodyEntry 0, mkCustodyEntry 36000000, mkCustodyEntry 108000000] = false
    ∧ hasCustodyGap [mkCustodyEntry 0, mkCustodyEntry 108000000] = true := by
  refine ⟨?_, ?_, hasCustodyGap_perm l₁ l₂, by decide, by decide⟩
  · rw [hasCustodyGap_eq]
    by_cases h : entries.length < 2
    · simp only [h, if_true]
      constructor
      · intro hfalse
        exact absurd hfalse (by simp)
      · intro hspec
        refine absurd hspec (adjacentGapSpec_short _ ?_ _)
        rw [sortedCustodyTimestamps_length]
        exact h
    · simp only [h, if_false]
      exact intGapLoop_iff _
  · intro h
    rw [hasCustodyGap_eq]
    have : entries.length < 2 := by omega
    simp [this]

/-- **C5 witness** — the detector at concrete inputs: a singleton list
reports no gap, and reversing the input order of a two-entry list
leaves the verdict unchanged. -/
theorem custody_gap_detector_correct_witness :
    hasCustodyGap [mkCustodyEntry 0] = false
    ∧ hasCustodyGap [mkCustodyEntry 108000000, mkCustodyEntry 0] =
        hasCustodyGap [mkCustodyEntry 0, mkCustodyEntry 108000000] :=
  ⟨(custody_gap_detector_correct [mkCustodyEntry 0] [] []).2.1 (by decide),
   (custody_gap_detector_correct []
      [mkCustodyEntry 108000000, mkCustodyEntry 0]
      [mkCustodyEntry 0, mkCustodyEntry 108000000]).2.2.1 (by decide)⟩

/-- **C7** — The external-auditor export is a minimization: every
returned row is exactly the id/action/target-type/timestamp view of a
source entry matching the date range and the optional target-type
filter; every matching source entry contributes its view; and the
export is a function of the per-row views alone, so two stores that
differ only in the stripped fields (`details`, `user_id`, `target_id`,
network metadata) produce identical exports. -/
theorem auditor_export_minimization (store₁ store₂ : List AuditRow)
    (s e : Int) (tt : Option String) (v : AuditorExportRow) :
    (v ∈ getAuditorExport store₁ s e tt →
      ∃ row ∈ store₁, auditorExportKeeps s e tt row = true ∧ v = auditRowView row)
    ∧ (∀ row ∈ store₁, auditorExportKeeps s e tt row = true →
        auditRowView row ∈ getAuditorExport store₁ s e tt)
    ∧ (store₁.map auditRowView = store₂.map auditRowView →
        getAuditorExport store₁ s e tt = getAuditorExport store₂ s e tt) := by
  refine ⟨?_, ?_, ?_⟩
  · intro hv
    unfold getAuditorExport at hv
    obtain ⟨row, hrow, hview⟩ := List.mem_map.mp hv
    have hrow' : row ∈ store₁.filter (auditorExportKeeps s e tt) :=
      (List.perm_insertionSort _ _).subset hrow
    obtain ⟨hmem, hkeep⟩ := List.mem_filter.mp hrow'
    exact ⟨row, hmem, hkeep, hview.symm⟩
  · intro row hrow hkeep
    unfold getAuditorExport
    refine List.mem_map_of_mem auditRowView ?_
    exact ((List.perm_insertionSort _ _).mem_iff).mpr
      (List.mem_filter.mpr ⟨hrow, hkeep⟩)
  · intro h
    rw [getAuditorExport_eq_view, getAuditorExport_eq_view, h]

/-- **C7 witness** — the export of a concrete one-row store: the
returned row is the minimized view of the source row, the matching row
does appear, and scrubbing every stripped field of the store leaves
the export unchanged. -/
theorem auditor_export_minimization_witness :
    (∃ row ∈ [sampleAuditRow], auditorExportKeeps 0 10 none row = true ∧
        auditRowView sampleAuditRow = auditRowView row)
    ∧ auditRowView sampleAuditRow ∈ getAuditorExport [sampleAuditRow] 0 10 none
    ∧ getAuditorExport [sampleAuditRow] 0 10 none =
        getAuditorExport [sampleAuditRowScrubbed] 0 10 none :=
  ⟨(auditor_export_minimization [sampleAuditRow] [] 0 10 none
      (auditRowView sampleAuditRow)).1 (by decide),
   (auditor_export_minimization [sampleAuditRow] [] 0 10 none
      (auditRowView sampleAuditRow)).2.1 sampleAuditRow (by decide) (by decide),
   (auditor_export_minimization [sampleAuditRow] [sampleAuditRowScrubbed] 0 10 none
      (auditRowView sampleAuditRow)).2.2 (by decide)⟩

/-- **C9** — Field resolution is total: a non-object value at any
intermediate step resolves the rest of the path to `undefined`, and a
missing object key does the same, with no exception path.  The
`exists` operator is true iff the resolved value is neither `null`
nor `undefined`, and `not_exists` is its exact pointwise negation, so
missing and null are treated identically as absent. -/
theorem field_resolution_and_existence_operators (v fv : Value) (p : String)
    (parts : List String) (fields : List (String × Value))
    (c₁ c₂ : RuleCondition) :
    (v.isObjectLike = false → walkPath (p :: parts) v = Value.undefined)
    ∧ (lookupField fields p = none →
        walkPath (p :: parts) (Value.obj fields) = Value.undefined)
    ∧ (c₁.operator = Operator.op_exists →
        (evaluateCondition c₁ fv = true ↔ (fv ≠ .vnull ∧ fv ≠ .undefined)))
    ∧ (c₁.operator = Operator.op_exists → c₂.operator = Operator.not_exists →
        evaluateCondition c₂ fv = !(evaluateCondition c₁ fv)) := by
  refine ⟨?_, ?_, ?_, ?_⟩
  · intro h
    simp [walkPath, h]
  · intro h
    simp only [walkPath, Value.isObjectLike, if_true, Value.lookupKey, h,
      Option.getD_none]
    exact walkPath_undef parts
  · intro h
    simp only [evaluateCondition, h]
    cases fv <;> simp [strictEq]
  · intro h₁ h₂
    simp only [evaluateCondition, h₁, h₂]
    cases fv <;> simp [strictEq]

/-- **C9 witness** — resolution and the existence operators at
concrete inputs: a path into a string value and a path whose first
key is missing both resolve to `undefined`; `exists` on a number is
true, and `not_exists` is its negation. -/
theorem field_resolution_and_existence_operators_witness :
    (walkPath ["x"] (Value.str "s") = Value.undefined)
    ∧ (walkPath ["k", "y"] (Value.obj [("a", Value.num 1)]) = Value.undefined)
    ∧ (evaluateCondition ⟨some "f", .op_exists, .vnull⟩ (Value.num 3) = true ↔
        (Value.num 3 ≠ .vnull ∧ Value.num 3 ≠ .undefined))
    ∧ evaluateCondition ⟨some "f", .not_exists, .vnull⟩ (Value.num 3)
        = !(evaluateCondition ⟨some "f", .op_exists, .vnull⟩ (Value.num 3)) :=
  ⟨(field_resolution_and_existence_operators (Value.str "s") Value.undefined "x" []
      [] ⟨some "f", .op_exists, .vnull⟩ ⟨some "f", .not_exists, .vnull⟩).1 rfl,
   (field_resolution_and_existence_operators Value.undefined Value.undefined "k" ["y"]
      [("a", Value.num 1)] ⟨some "f", .op_exists, .vnull⟩
      ⟨some "f", .not_exists, .vnull⟩).2.1 rfl,
   (field_resolution_and_existence_operators Value.undefined (Value.num 3) "k" []
      [] ⟨some "f", .op_exists, .vnull⟩ ⟨some "f", .not_exists, .vnull⟩).2.2.1 rfl,
   (field_resolution_and_existence_operators Value.undefined (Value.num 3) "k" []
      [] ⟨some "f", .op_exists, .vnull⟩ ⟨some "f", .not_exists, .vnull⟩).2.2.2
      rfl rfl⟩

/-- **C10** — Every action compiled by `parseActions` carries a
non-empty severity: an entry from the YAML action list with no `type`
key compiles to `create_alert`, one with no `severity` key compiles to
`medium`, and the message and evidence references pass through
unchanged. -/
theorem parse_actions_defaults (yamlActions : List YamlAction)
    (compiled : RuleAction)
    (h : compiled ∈ parseActions (some yamlActions)) :
    compiled.severity ≠ ""
    ∧ compiled.type ≠ ""
    ∧ ∃ action ∈ yamlActions,
        (action.type = none → compiled.type = "create_alert")
        ∧ (action.severity = none → compiled.severity = "medium")
        ∧ compiled.message = action.message
        ∧ compiled.evidence_refs = action.evidence_refs := by
  unfold parseActions at h
  obtain ⟨action, haction, hcompiled⟩ := List.mem_map.mp h
  subst hcompiled
  refine ⟨?_, ?_, action, haction, ?_, ?_, rfl, rfl⟩
  · show jsStrOrDefault action.severity "medium" ≠ ""
    unfold jsStrOrDefault
    match action.severity with
    | none => simp
    | some sv =>
        by_cases hsv : sv = "" <;> simp [hsv]
  · show jsStrOrDefault action.type "create_alert" ≠ ""
    unfold jsStrOrDefault
    match action.type with
    | none => simp
    | some ty =>
        by_cases hty : ty = "" <;> simp [hty]
  · intro hnone
    show jsStrOrDefault action.type "create_alert" = "create_alert"
    rw [hnone]
    rfl
  · intro hnone
    show jsStrOrDefault action.severity "medium" = "medium"
    rw [hnone]
    rfl

/-- **C10 witness** — parsing the single YAML action with no `type`
and no `severity` key: the compiled action defaults to a
`create_alert` of `medium` severity and keeps its message. -/
theorem parse_actions_defaults_witness :
    (⟨"create_alert", "medium", some "m", none⟩ : RuleAction).severity ≠ ""
    ∧ (⟨"create_alert", "medium", some "m", none⟩ : RuleAction).type ≠ ""
    ∧ ∃ action ∈ [(⟨none, none, some "m", none⟩ : YamlAction)],
        (action.type = none →
          (⟨"create_alert", "medium", some "m", none⟩ : RuleAction).type
            = "create_alert")
        ∧ (action.severity = none →
          (⟨"create_alert", "medium", some "m", none⟩ : RuleAction).severity
            = "medium")
        ∧ (⟨"create_alert", "medium", some "m", none⟩ : RuleAction).message
            = action.message
        ∧ (⟨"create_alert", "medium", some "m", none⟩ : RuleAction).evidence_refs
            = action.evidence_refs :=
  parse_actions_defaults [⟨none, none, some "m", none⟩]
    ⟨"create_alert", "medium", some "m", none⟩
    (List.mem_singleton.mpr rfl)

end Libera
